import Mathlib

/-!
Verification of the FastAPI_Retail price-computation core.

Shallow embedding of the Python sources under `src/app/`:
  - `discount.py`   — `DiscountCalculator` (tiered volume discount),
  - `tax.py`        — `State`, `TaxRate`, `TaxCalculator`,
  - `price_calculator.py` — `PriceCalculator` (validation + pipeline),
  - `exceptions.py` — the exception hierarchy,
  - `models.py`     — the request-schema price validator.

Modelling conventions:
  - Python `float` money values are modelled as exact rationals `ℚ`;
    `round(x, 2)` is modelled as rounding to 2 decimal places with ties
    to even (`round2` below), which is Python's documented rounding mode.
  - Raised exceptions are modelled as the `Except` error component; each
    Python exception class is a constructor of `RetailError` carrying the
    structured payload its `__init__` receives.
  - `dict` results of the calculators become structures with the same
    field names.
-/

/-- Round a rational to the nearest integer, ties to even
(Python's rounding mode for `round`). -/
def roundHalfEven (x : ℚ) : ℤ :=
  if x - ⌊x⌋ < 1/2 then ⌊x⌋
  else if 1/2 < x - ⌊x⌋ then ⌊x⌋ + 1
  else if 2 ∣ ⌊x⌋ then ⌊x⌋ else ⌊x⌋ + 1

/-- Model of Python `round(x, 2)`: round to 2 decimal places, ties to even. -/
def round2 (x : ℚ) : ℚ := (roundHalfEven (x * 100) : ℚ) / 100

theorem roundHalfEven_eq_floor_or_ceil (x : ℚ) :
    roundHalfEven x = ⌊x⌋ ∨ roundHalfEven x = ⌊x⌋ + 1 := by
  unfold roundHalfEven
  split_ifs <;> simp

theorem roundHalfEven_nonneg (x : ℚ) (hx : 0 ≤ x) : 0 ≤ roundHalfEven x := by
  rcases roundHalfEven_eq_floor_or_ceil x with h | h <;> rw [h]
  · exact Int.floor_nonneg.mpr hx
  · have := Int.floor_nonneg.mpr hx
    omega

theorem round2_nonneg (x : ℚ) (hx : 0 ≤ x) : 0 ≤ round2 x := by
  unfold round2
  have h : 0 ≤ roundHalfEven (x * 100) :=
    roundHalfEven_nonneg _ (by positivity)
  have : (0 : ℚ) ≤ (roundHalfEven (x * 100) : ℚ) := by exact_mod_cast h
  positivity

/-! ## Exceptions (src/app/exceptions.py)

Every exception in `exceptions.py` derives from `RetailException`, which
packs `status_code`, an `error_code`, a message, and an `additional_info`
dictionary.  We model each class as a constructor carrying the structured
arguments of its `__init__`.  Python builtin exceptions that the code can
raise (`ValueError` in validation, `TypeError` from a mis-arity
constructor call) get constructors of their own. -/

/-- The `calculation_data` dictionaries passed to `CalculationError`:
`tax.py` passes `{amount, state}` (plus an `error` string on the
unexpected-exception path), `price_calculator.py` passes
`{quantity, unit_price, state}`. -/
inductive CalcData where
  | taxData (amount : ℚ) (state : String)
  | taxErrData (amount : ℚ) (state : String) (error : String)
  | pipelineData (quantity : ℤ) (unit_price : ℚ) (state : String)
deriving DecidableEq

/-- The exceptions the core can raise.
`invalidState` = `InvalidStateError(state, valid_states)` (error code
`INVALID_STATE`, carries the offending code and the valid-code list);
`stateNotSupported` = `StateNotSupportedError(state)` (error code
`STATE_NOT_SUPPORTED`, carries the code; its fixed `additional_info`
also holds the support suggestion);
`calculationError` = `CalculationError(detail, calculation_data)`
(error code `CALCULATION_ERROR`);
`valueError` = builtin `ValueError(message)`;
`typeError` = builtin `TypeError(message)`. -/
inductive RetailError where
  | invalidState (state : String) (valid_states : List String)
  | stateNotSupported (state : String)
  | calculationError (detail : String) (calculation_data : CalcData)
  | valueError (message : String)
  | typeError (message : String)
deriving DecidableEq

/-- Models Python `str(e)`.  For `ValueError`/`TypeError` this is the
message.  For the `RetailException` subclasses Starlette renders
`f"{status_code}: {detail}"` with `detail` a dict; no verified property
depends on that text, so the dict rendering is abbreviated to the error
code and its main argument. -/
def errorStr : RetailError → String
  | .invalidState s _ => "400: INVALID_STATE: " ++ s
  | .stateNotSupported s => "400: STATE_NOT_SUPPORTED: " ++ s
  | .calculationError d _ => "500: CALCULATION_ERROR: " ++ d
  | .valueError m => m
  | .typeError m => m

/-! ## Tax engine (src/app/tax.py) -/

/-- Python `class State(str, Enum)`: the five known jurisdiction codes. -/
inductive State where
  | UT | NV | TX | AL | CA
deriving DecidableEq

/-- The `value` of each enum member. -/
def State.value : State → String
  | .UT => "UT"
  | .NV => "NV"
  | .TX => "TX"
  | .AL => "AL"
  | .CA => "CA"

/-- Members in definition order (Python iterates an Enum in that order). -/
def State.all : List State := [.UT, .NV, .TX, .AL, .CA]

/-- Python `State.list_states()`: the member values in definition order. -/
def State.list_states : List String := State.all.map State.value

/-- Python `State.is_valid_state(state)`: membership in
`_value2member_map_`, i.e. among the member values. -/
def State.is_valid_state (s : String) : Bool := State.list_states.contains s

/-- Python `State(state)` — enum lookup by value.  Total (`Option`) in the
model; it is only called after `is_valid_state` succeeded. -/
def State.ofValue? (s : String) : Option State :=
  State.all.find? (fun st => st.value = s)

/-- Dataclass `TaxRate` (field `enabled` defaults to `True` in Python;
the table below always passes it explicitly). -/
structure TaxRate where
  rate : ℚ
  description : String
  enabled : Bool
deriving DecidableEq

/-- Embeds `TaxCalculator._initialize_tax_rates`: the static
`self.tax_rates : Dict[State, TaxRate]`.  Modelled as a function
`State → Option TaxRate` (`Dict.get` semantics). -/
def default_tax_rates : State → Option TaxRate
  | .UT => some ⟨6.85, "Utah Sales Tax", true⟩
  | .NV => some ⟨8.00, "Nevada Sales Tax", true⟩
  | .TX => some ⟨6.25, "Texas Sales Tax", true⟩
  | .AL => some ⟨4.00, "Alabama Sales Tax", true⟩
  | .CA => some ⟨8.25, "California Sales Tax", true⟩

/-- Embeds `TaxCalculator.validate_state`, parameterised by the instance's
`self.tax_rates` table (initialised to `default_tax_rates`).

Mirrors the Python control flow:
 1. `if not State.is_valid_state(state): raise InvalidStateError(state, State.list_states())`;
 2. `state_enum = State(state)` — cannot fail after step 1, the
    unreachable `none` branch is mapped to a `TypeError`;
 3. `if not tax_rate: raise StateNotSupportedError(state)`;
 4. `if not tax_rate.enabled:` the code then evaluates
    `StateNotSupportedError(state, f"...")` — but
    `StateNotSupportedError.__init__` accepts only `state`
    (src/app/exceptions.py line 38), so this two-argument call raises
    `TypeError` at runtime instead of the intended exception. -/
def validate_state (rates : State → Option TaxRate) (state : String) :
    Except RetailError State :=
  if !(State.is_valid_state state) then
    .error (.invalidState state State.list_states)
  else
    match State.ofValue? state with
    | none => .error (.typeError ("ValueError: " ++ state ++ " is not a valid State"))
    | some state_enum =>
      match rates state_enum with
      | none => .error (.stateNotSupported state)
      | some tax_rate =>
        if !tax_rate.enabled then
          .error (.typeError
            "StateNotSupportedError.__init__() takes 2 positional arguments but 3 were given")
        else
          .ok state_enum

/-- Embeds `TaxCalculator.get_tax_rate`. -/
def get_tax_rate (rates : State → Option TaxRate) (state : State) : Option TaxRate :=
  rates state

/-- The dict returned by `TaxCalculator.calculate_tax`. -/
structure TaxResult where
  original_amount : ℚ
  state : String
  tax_rate : ℚ
  tax_amount : ℚ
  final_amount : ℚ
  tax_description : String
  calculation_details : List String
deriving DecidableEq

/-- Embeds `TaxCalculator.calculate_tax`, parameterised by `self.tax_rates`.

The `try`/`except` dispatch at the end of the Python function becomes the
error mapping here:
  - `except ValueError` → `CalculationError(str(e), {amount, state})` —
    reached by the negative-amount `raise ValueError` (at that point
    `amount` has not yet been rounded);
  - `except (InvalidStateError, StateNotSupportedError): raise` — those
    two pass through unwrapped;
  - `except Exception` → `CalculationError("Erreur inattendue ...",
    {amount, state, error})` — reached by the `TypeError` of the disabled
    branch of `validate_state`.  -/
def calculate_tax (rates : State → Option TaxRate) (amount : ℚ) (state : String) :
    Except RetailError TaxResult :=
  match validate_state rates state with
  | .error (.invalidState s v) => .error (.invalidState s v)
  | .error (.stateNotSupported s) => .error (.stateNotSupported s)
  | .error (.valueError m) =>
      .error (.calculationError m (.taxData amount state))
  | .error e =>
      .error (.calculationError "Erreur inattendue lors du calcul de la taxe"
        (.taxErrData amount state (errorStr e)))
  | .ok state_enum =>
    if amount < 0 then
      .error (.calculationError "Le montant ne peut pas être négatif"
        (.taxData amount state))
    else
      let amount2 := round2 amount
      match get_tax_rate rates state_enum with
      | none => .error (.stateNotSupported state)
      | some tax_rate =>
        let tax_amount := round2 (amount2 * (tax_rate.rate / 100))
        let final_amount := round2 (amount2 + tax_amount)
        .ok {
          original_amount := amount2
          state := state
          tax_rate := tax_rate.rate
          tax_amount := tax_amount
          final_amount := final_amount
          tax_description :=
            "Taxe de vente " ++ state ++ " (" ++ toString tax_rate.rate ++ "%)"
          calculation_details := [
            "1. Montant de base : " ++ toString amount2 ++ "€",
            "2. État " ++ state ++ " - Taux de taxe : " ++ toString tax_rate.rate ++ "%",
            "3. Calcul de la taxe : " ++ toString amount2 ++ "€ × "
              ++ toString tax_rate.rate ++ "% = " ++ toString tax_amount ++ "€",
            "4. Montant final : " ++ toString amount2 ++ "€ + "
              ++ toString tax_amount ++ "€ = " ++ toString final_amount ++ "€"] }

/-! ## Discount engine (src/app/discount.py) -/

/-- Dataclass `DiscountRule`. -/
structure DiscountRule where
  min_amount : ℚ
  discount_percentage : ℚ
  description : String
deriving DecidableEq

/-- Embeds `DiscountCalculator.__init__`: the static `self.discount_rules`. -/
def discount_rules : List DiscountRule :=
  [⟨100, 5, "5% de remise pour les achats de plus de 100€"⟩,
   ⟨500, 10, "10% de remise pour les achats de plus de 500€"⟩,
   ⟨1000, 15, "15% de remise pour les achats de plus de 1000€"⟩,
   ⟨5000, 20, "20% de remise pour les achats de plus de 5000€"⟩]

/-- Python `max(xs, key=lambda x: x.discount_percentage)`: the first
element attaining the maximal key (a later element replaces the running
maximum only when strictly greater). -/
def maxByPercentage : List DiscountRule → Option DiscountRule
  | [] => none
  | r :: rs =>
    some (rs.foldl
      (fun best x =>
        if x.discount_percentage > best.discount_percentage then x else best) r)

/-- Embeds `DiscountCalculator.get_applicable_discount`. -/
def get_applicable_discount (total_amount : ℚ) : Option DiscountRule :=
  maxByPercentage
    (discount_rules.filter (fun rule => total_amount ≥ rule.min_amount))

/-- The dict returned by `DiscountCalculator.calculate_discount`. -/
structure DiscountResult where
  original_amount : ℚ
  discount_percentage : ℚ
  discount_amount : ℚ
  final_amount : ℚ
  discount_description : String
deriving DecidableEq

/-- Embeds `DiscountCalculator.calculate_discount`.  Note that the *unrounded*
discount is subtracted and the difference is then rounded; only the
returned fields are rounded. -/
def calculate_discount (total_amount : ℚ) : DiscountResult :=
  match get_applicable_discount total_amount with
  | none =>
    { original_amount := total_amount
      discount_percentage := 0
      discount_amount := 0
      final_amount := total_amount
      discount_description := "Aucune remise applicable" }
  | some discount_rule =>
    let discount_amount := total_amount * (discount_rule.discount_percentage / 100)
    let final_amount := total_amount - discount_amount
    { original_amount := total_amount
      discount_percentage := discount_rule.discount_percentage
      discount_amount := round2 discount_amount
      final_amount := round2 final_amount
      discount_description := discount_rule.description }

/-! ## Price pipeline (src/app/price_calculator.py) -/

/-- Embeds `PriceCalculator.MAX_QUANTITY`. -/
def MAX_QUANTITY : ℤ := 10000
/-- Embeds `PriceCalculator.MAX_UNIT_PRICE`. -/
def MAX_UNIT_PRICE : ℚ := 1000000
/-- Embeds `PriceCalculator.MAX_TOTAL`. -/
def MAX_TOTAL : ℚ := 10000000

/-- Embeds `PriceCalculator.validate_inputs` — raises `ValueError` (here:
`.error (.valueError _)`) on the first violated check, in source order. -/
def validate_inputs (quantity : ℤ) (unit_price : ℚ) : Except RetailError Unit :=
  if quantity ≤ 0 then
    .error (.valueError "La quantité doit être un nombre positif")
  else if unit_price ≤ 0 then
    .error (.valueError "Le prix unitaire doit être un nombre positif")
  else if quantity > MAX_QUANTITY then
    .error (.valueError "La quantité ne peut pas dépasser 10000")
  else if unit_price > MAX_UNIT_PRICE then
    .error (.valueError "Le prix unitaire ne peut pas dépasser 1000000€")
  else if (quantity : ℚ) * unit_price > MAX_TOTAL then
    .error (.valueError "Le montant total ne peut pas dépasser 10 millions €")
  else
    .ok ()

/-- Dataclass `PriceBreakdown`. -/
structure PriceBreakdown where
  subtotal : ℚ
  discount_percentage : ℚ
  discount_amount : ℚ
  price_after_discount : ℚ
  tax_rate : ℚ
  tax_amount : ℚ
  final_price : ℚ
  tax_description : String
  calculation_steps : List String
deriving DecidableEq

/-- Embeds `PriceCalculator.calculate_final_price`.

The whole body sits in a `try` whose handlers are:
  - `except ValueError as e: raise ValueError(str(e))` — validation
    failures (and any other `ValueError`) re-surface as `ValueError`;
  - `except Exception as e: raise CalculationError(str(e),
    {quantity, unit_price, state})` — *every* other exception, including
    `InvalidStateError` and `StateNotSupportedError` escaping
    `calculate_tax` (they are not `ValueError` subclasses), is re-wrapped
    here. -/
def calculate_final_price (quantity : ℤ) (unit_price : ℚ) (state : String) :
    Except RetailError PriceBreakdown :=
  match validate_inputs quantity unit_price with
  | .error (.valueError m) => .error (.valueError m)
  | .error e =>
      .error (.calculationError (errorStr e) (.pipelineData quantity unit_price state))
  | .ok _ =>
    let subtotal := round2 ((quantity : ℚ) * unit_price)
    let discount_info := calculate_discount subtotal
    let price_after_discount := discount_info.final_amount
    match calculate_tax default_tax_rates price_after_discount state with
    | .error (.valueError m) => .error (.valueError m)
    | .error e =>
        .error (.calculationError (errorStr e) (.pipelineData quantity unit_price state))
    | .ok tax_info =>
      .ok {
        subtotal := subtotal
        discount_percentage := discount_info.discount_percentage
        discount_amount := discount_info.discount_amount
        price_after_discount := price_after_discount
        tax_rate := tax_info.tax_rate
        tax_amount := tax_info.tax_amount
        final_price := tax_info.final_amount
        tax_description := tax_info.tax_description
        calculation_steps := tax_info.calculation_details }

/-! ## Request schema (src/app/models.py) -/

/-- Embeds the test of `ProductInput.validate_price`:
`Decimal(str(v)).as_tuple().exponent < -2`, i.e. whether the decimal
rendering of `v` has more than 2 decimal places.  For an exact rational
that is: `v * 100` is not an integer. -/
def has_at_most_2_decimals (v : ℚ) : Bool := (v * 100).den == 1

/-- Embeds `ProductInput.validate_price` (request-schema boundary): rejects a
price with more than 2 decimal places, otherwise returns it unchanged. -/
def validate_price (v : ℚ) : Except String ℚ :=
  if !(has_at_most_2_decimals v) then
    .error "Le prix ne peut pas avoir plus de 2 décimales"
  else
    .ok v

/-! ## Helper lemmas -/

theorem calculate_discount_none_eq (s : ℚ) (h : get_applicable_discount s = none) :
    calculate_discount s =
      { original_amount := s, discount_percentage := 0, discount_amount := 0,
        final_amount := s, discount_description := "Aucune remise applicable" } := by
  unfold calculate_discount
  rw [h]

theorem calculate_discount_some_eq (s : ℚ) (r : DiscountRule)
    (h : get_applicable_discount s = some r) :
    calculate_discount s =
      { original_amount := s,
        discount_percentage := r.discount_percentage,
        discount_amount := round2 (s * (r.discount_percentage / 100)),
        final_amount := round2 (s - s * (r.discount_percentage / 100)),
        discount_description := r.description } := by
  unfold calculate_discount
  rw [h]

theorem gad_below (s : ℚ) (h : s < 100) : get_applicable_discount s = none := by
  have n1 : ¬ (s ≥ 100) := by linarith
  have n2 : ¬ (s ≥ 500) := by linarith
  have n3 : ¬ (s ≥ 1000) := by linarith
  have n4 : ¬ (s ≥ 5000) := by linarith
  simp [get_applicable_discount, discount_rules, maxByPercentage, List.filter, n1, n2, n3, n4]

theorem gad_tier1 (s : ℚ) (h1 : 100 ≤ s) (h2 : s < 500) :
    get_applicable_discount s =
      some ⟨100, 5, "5% de remise pour les achats de plus de 100€"⟩ := by
  have n2 : ¬ (s ≥ 500) := by linarith
  have n3 : ¬ (s ≥ 1000) := by linarith
  have n4 : ¬ (s ≥ 5000) := by linarith
  simp [get_applicable_discount, discount_rules, maxByPercentage, List.filter, h1, n2, n3, n4,
    ge_iff_le]

theorem gad_tier2 (s : ℚ) (h1 : 500 ≤ s) (h2 : s < 1000) :
    get_applicable_discount s =
      some ⟨500, 10, "10% de remise pour les achats de plus de 500€"⟩ := by
  have m1 : (100 : ℚ) ≤ s := by linarith
  have n3 : ¬ (s ≥ 1000) := by linarith
  have n4 : ¬ (s ≥ 5000) := by linarith
  simp [get_applicable_discount, discount_rules, maxByPercentage, List.filter, m1, h1, n3, n4,
    ge_iff_le]
  norm_num

theorem gad_tier3 (s : ℚ) (h1 : 1000 ≤ s) (h2 : s < 5000) :
    get_applicable_discount s =
      some ⟨1000, 15, "15% de remise pour les achats de plus de 1000€"⟩ := by
  have m1 : (100 : ℚ) ≤ s := by linarith
  have m2 : (500 : ℚ) ≤ s := by linarith
  have n4 : ¬ (s ≥ 5000) := by linarith
  simp [get_applicable_discount, discount_rules, maxByPercentage, List.filter, m1, m2, h1, n4,
    ge_iff_le]
  norm_num

theorem gad_tier4 (s : ℚ) (h1 : 5000 ≤ s) :
    get_applicable_discount s =
      some ⟨5000, 20, "20% de remise pour les achats de plus de 5000€"⟩ := by
  have m1 : (100 : ℚ) ≤ s := by linarith
  have m2 : (500 : ℚ) ≤ s := by linarith
  have m3 : (1000 : ℚ) ≤ s := by linarith
  simp [get_applicable_discount, discount_rules, maxByPercentage, List.filter, m1, m2, m3, h1,
    ge_iff_le]
  norm_num

theorem foldl_maxBy_mem (r0 : DiscountRule) (rs : List DiscountRule) :
    rs.foldl
      (fun best x =>
        if x.discount_percentage > best.discount_percentage then x else best) r0
      ∈ r0 :: rs := by
  induction rs generalizing r0 with
  | nil => simp
  | cons a t ih =>
    simp only [List.foldl_cons]
    have hb : (if a.discount_percentage > r0.discount_percentage then a else r0) = a ∨
        (if a.discount_percentage > r0.discount_percentage then a else r0) = r0 := by
      split
      · exact Or.inl rfl
      · exact Or.inr rfl
    have hmem := ih (if a.discount_percentage > r0.discount_percentage then a else r0)
    rcases List.mem_cons.mp hmem with hm | hm
    · rcases hb with hb | hb <;> rw [hm, hb] <;> simp
    · simp [List.mem_cons, hm]

theorem foldl_maxBy_ge (r0 : DiscountRule) (rs : List DiscountRule) :
    ∀ x ∈ r0 :: rs, x.discount_percentage ≤
      (rs.foldl
        (fun best y =>
          if y.discount_percentage > best.discount_percentage then y else best) r0).discount_percentage := by
  induction rs generalizing r0 with
  | nil => simp
  | cons a t ih =>
    intro x hx
    simp only [List.foldl_cons]
    have step : r0.discount_percentage ≤
        (if a.discount_percentage > r0.discount_percentage then a else r0).discount_percentage ∧
        a.discount_percentage ≤
        (if a.discount_percentage > r0.discount_percentage then a else r0).discount_percentage := by
      constructor <;> split <;> linarith [le_refl r0.discount_percentage]
    have ihx := ih (if a.discount_percentage > r0.discount_percentage then a else r0)
    rcases List.mem_cons.mp hx with hm | hm
    · subst hm
      exact le_trans step.1 (ihx _ (List.mem_cons_self _ _))
    · rcases List.mem_cons.mp hm with hm2 | hm2
      · subst hm2
        exact le_trans step.2 (ihx _ (List.mem_cons_self _ _))
      · exact ihx x (List.mem_cons_of_mem _ hm2)

theorem maxByPercentage_spec (l : List DiscountRule) (r : DiscountRule)
    (h : maxByPercentage l = some r) :
    r ∈ l ∧ ∀ x ∈ l, x.discount_percentage ≤ r.discount_percentage := by
  cases l with
  | nil => simp [maxByPercentage] at h
  | cons a t =>
    simp only [maxByPercentage, Option.some.injEq] at h
    subst h
    exact ⟨foldl_maxBy_mem a t, foldl_maxBy_ge a t⟩

theorem gad_some_spec (s : ℚ) (r : DiscountRule) (h : get_applicable_discount s = some r) :
    r ∈ discount_rules ∧ r.min_amount ≤ s ∧
      ∀ x ∈ discount_rules, x.min_amount ≤ s → x.discount_percentage ≤ r.discount_percentage := by
  unfold get_applicable_discount at h
  obtain ⟨hmem, hmax⟩ := maxByPercentage_spec _ _ h
  have hmem2 := List.mem_filter.mp hmem
  refine ⟨hmem2.1, by simpa using hmem2.2, ?_⟩
  intro x hx hxs
  exact hmax x (List.mem_filter.mpr ⟨hx, by simpa using hxs⟩)

theorem State_ofValue_value (state : String) (st : State)
    (h : State.ofValue? state = some st) : st.value = state := by
  unfold State.ofValue? at h
  have := List.find?_some h
  simpa using this

theorem validate_state_default_of_value (st : State) :
    validate_state default_tax_rates st.value = .ok st := by
  cases st <;> rfl

theorem validate_state_default_ok (state : String) (st : State)
    (h : State.ofValue? state = some st) :
    validate_state default_tax_rates state = .ok st := by
  rw [← State_ofValue_value state st h]
  exact validate_state_default_of_value st

theorem validate_state_invalid (rates : State → Option TaxRate) (state : String)
    (h : state ∉ State.list_states) :
    validate_state rates state = .error (.invalidState state State.list_states) := by
  have hb : State.is_valid_state state = false := by
    unfold State.is_valid_state
    simpa using h
  unfold validate_state
  rw [hb]
  rfl

theorem calculate_tax_invalid (rates : State → Option TaxRate) (amount : ℚ) (state : String)
    (h : state ∉ State.list_states) :
    calculate_tax rates amount state = .error (.invalidState state State.list_states) := by
  unfold calculate_tax
  rw [validate_state_invalid rates state h]

theorem calculate_tax_ok_eq (rates : State → Option TaxRate) (amount : ℚ) (state : String)
    (st : State) (tr : TaxRate)
    (hvs : validate_state rates state = .ok st)
    (htr : rates st = some tr)
    (h0 : 0 ≤ amount) :
    calculate_tax rates amount state = .ok {
      original_amount := round2 amount
      state := state
      tax_rate := tr.rate
      tax_amount := round2 (round2 amount * (tr.rate / 100))
      final_amount := round2 (round2 amount + round2 (round2 amount * (tr.rate / 100)))
      tax_description := "Taxe de vente " ++ state ++ " (" ++ toString tr.rate ++ "%)"
      calculation_details := [
        "1. Montant de base : " ++ toString (round2 amount) ++ "€",
        "2. État " ++ state ++ " - Taux de taxe : " ++ toString tr.rate ++ "%",
        "3. Calcul de la taxe : " ++ toString (round2 amount) ++ "€ × "
          ++ toString tr.rate ++ "% = "
          ++ toString (round2 (round2 amount * (tr.rate / 100))) ++ "€",
        "4. Montant final : " ++ toString (round2 amount) ++ "€ + "
          ++ toString (round2 (round2 amount * (tr.rate / 100))) ++ "€ = "
          ++ toString (round2 (round2 amount + round2 (round2 amount * (tr.rate / 100)))) ++ "€"] } := by
  unfold calculate_tax
  rw [hvs]
  dsimp only
  rw [if_neg (not_lt.mpr h0)]
  unfold get_tax_rate
  rw [htr]

theorem validate_state_ne_valueError (rates : State → Option TaxRate) (state : String)
    (m : String) : validate_state rates state ≠ .error (.valueError m) := by
  unfold validate_state
  intro h
  split at h
  · simp at h
  · split at h
    · simp at h
    · split at h
      · simp at h
      · split at h <;> simp at h

theorem calculate_tax_ne_valueError (rates : State → Option TaxRate) (amount : ℚ)
    (state : String) (m : String) :
    calculate_tax rates amount state ≠ .error (.valueError m) := by
  unfold calculate_tax
  intro h
  split at h
  · simp at h
  · simp at h
  · simp at h
  · simp at h
  · split at h
    · simp at h
    · split at h
      · simp at h
      · simp at h

theorem validate_inputs_ok_iff (q : ℤ) (p : ℚ) :
    validate_inputs q p = .ok () ↔
      ¬ (q ≤ 0 ∨ q > 10000 ∨ p ≤ 0 ∨ p > 1000000 ∨ (q : ℚ) * p > 10000000) := by
  unfold validate_inputs MAX_QUANTITY MAX_UNIT_PRICE MAX_TOTAL
  push_neg
  constructor
  · intro h
    split_ifs at h with h1 h2 h3 h4 h5
    exact ⟨by omega, by omega, by linarith, by linarith, by linarith⟩
  · rintro ⟨c1, c2, c3, c4, c5⟩
    rw [if_neg (by omega), if_neg (by linarith), if_neg (by omega), if_neg (by linarith),
      if_neg (by linarith)]

theorem validate_inputs_error_or_ok (q : ℤ) (p : ℚ) :
    validate_inputs q p = .ok () ∨ ∃ m, validate_inputs q p = .error (.valueError m) := by
  unfold validate_inputs
  split_ifs <;> first
    | exact Or.inl rfl
    | exact Or.inr ⟨_, rfl⟩

theorem discount_final_nonneg (s : ℚ) (hs : 0 ≤ s) :
    0 ≤ (calculate_discount s).final_amount := by
  cases h : get_applicable_discount s with
  | none => rw [calculate_discount_none_eq s h]; exact hs
  | some r =>
    rw [calculate_discount_some_eq s r h]
    obtain ⟨hmem, -, -⟩ := gad_some_spec s r h
    have hpct : 0 ≤ r.discount_percentage ∧ r.discount_percentage ≤ 100 := by
      simp only [discount_rules, List.mem_cons, List.not_mem_nil, or_false] at hmem
      rcases hmem with rfl | rfl | rfl | rfl <;> norm_num
    refine round2_nonneg _ ?_
    have : s - s * (r.discount_percentage / 100) = s * (1 - r.discount_percentage / 100) := by
      ring
    rw [this]
    apply mul_nonneg hs
    have := hpct.2
    linarith

theorem default_tax_rates_enabled (st : State) :
    ∃ tr : TaxRate, default_tax_rates st = some tr := by
  cases st <;> exact ⟨_, rfl⟩

theorem calculate_final_price_validation_error (q : ℤ) (p : ℚ) (state : String) (m : String)
    (h : validate_inputs q p = .error (.valueError m)) :
    calculate_final_price q p state = .error (.valueError m) := by
  unfold calculate_final_price
  rw [h]

theorem calculate_final_price_ok_eq (q : ℤ) (p : ℚ) (state : String) (ti : TaxResult)
    (hok : validate_inputs q p = .ok ())
    (htax : calculate_tax default_tax_rates
      (calculate_discount (round2 ((q : ℚ) * p))).final_amount state = .ok ti) :
    calculate_final_price q p state = .ok {
      subtotal := round2 ((q : ℚ) * p)
      discount_percentage := (calculate_discount (round2 ((q : ℚ) * p))).discount_percentage
      discount_amount := (calculate_discount (round2 ((q : ℚ) * p))).discount_amount
      price_after_discount := (calculate_discount (round2 ((q : ℚ) * p))).final_amount
      tax_rate := ti.tax_rate
      tax_amount := ti.tax_amount
      final_price := ti.final_amount
      tax_description := ti.tax_description
      calculation_steps := ti.calculation_details } := by
  unfold calculate_final_price
  rw [hok]
  dsimp only
  rw [htax]

theorem calculate_final_price_wraps_error (q : ℤ) (p : ℚ) (state : String) (e : RetailError)
    (hok : validate_inputs q p = .ok ())
    (htax : calculate_tax default_tax_rates
      (calculate_discount (round2 ((q : ℚ) * p))).final_amount state = .error e)
    (hne : ∀ m, e ≠ .valueError m) :
    calculate_final_price q p state =
      .error (.calculationError (errorStr e) (.pipelineData q p state)) := by
  unfold calculate_final_price
  rw [hok]
  dsimp only
  rw [htax]
  cases e with
  | invalidState s v => rfl
  | stateNotSupported s => rfl
  | calculationError d c => rfl
  | valueError m => exact absurd rfl (hne m)
  | typeError m => rfl

theorem den_ne_one_of_not_dvd (a b : ℤ) (hb : 0 < b) (hnd : ¬ (b ∣ a)) :
    ((a : ℚ) / b).den ≠ 1 := by
  intro h1
  have h2 : (((a : ℚ) / b).num : ℚ) = (a : ℚ) / b := (Rat.den_eq_one_iff _).mp h1
  have hb0 : (b : ℚ) ≠ 0 := by
    exact_mod_cast ne_of_gt hb
  have h3 : (((a : ℚ) / b).num : ℚ) * b = a := by
    field_simp at h2
    linarith [h2]
  have h4 : ((a : ℚ) / b).num * b = a := by exact_mod_cast h3
  exact hnd ⟨((a : ℚ) / b).num, by linarith [h4]⟩

theorem price_4999_over_1000_not_2_decimals :
    has_at_most_2_decimals (4999 / 1000) = false := by
  unfold has_at_most_2_decimals
  have h : ((4999 : ℚ) / 1000) * 100 = (4999 : ℚ) / 10 := by norm_num
  rw [h]
  have := den_ne_one_of_not_dvd 4999 10 (by norm_num) (by norm_num)
  simpa using this


/-- C2: the discount amount is `round2 (subtotal * pct / 100)`, but the final
amount is `round2 (subtotal - unrounded discount)`, not `subtotal - rounded
amount`: at subtotal 100.001 the code returns 95.00 while the claim demands
100.001 - 5.00 = 95.001. -/
theorem discount_final_amount_cex :
    (calculate_discount (100001 / 1000)).discount_percentage = 5 ∧
    (calculate_discount (100001 / 1000)).discount_amount = 5 ∧
    (calculate_discount (100001 / 1000)).final_amount = 95 ∧
    (95 : ℚ) ≠ 100001 / 1000 - 5 := by
  have hgad := gad_tier1 (100001 / 1000) (by norm_num) (by norm_num)
  rw [calculate_discount_some_eq _ _ hgad]
  refine ⟨rfl, ?_, ?_, by norm_num⟩
  · norm_num [round2, roundHalfEven]
  · norm_num [round2, roundHalfEven]

/-- C2 (amended): whenever a tier applies, `calculate_discount` returns
`amount = round2 (subtotal * pct / 100)` and
`final_amount = round2 (subtotal - subtotal * pct / 100)` — the unrounded
discount is subtracted from the subtotal and the difference is rounded. -/
theorem calculate_discount_rounding_spec (s : ℚ) (r : DiscountRule)
    (h : get_applicable_discount s = some r) :
    (calculate_discount s).discount_percentage = r.discount_percentage ∧
    (calculate_discount s).discount_amount = round2 (s * (r.discount_percentage / 100)) ∧
    (calculate_discount s).final_amount = round2 (s - s * (r.discount_percentage / 100)) := by
  rw [calculate_discount_some_eq s r h]
  exact ⟨rfl, rfl, rfl⟩

theorem calculate_discount_rounding_spec_witness :
    (calculate_discount 100).discount_percentage = 5 ∧
    (calculate_discount 100).discount_amount = round2 ((100 : ℚ) * (5 / 100)) ∧
    (calculate_discount 100).final_amount = round2 ((100 : ℚ) - 100 * (5 / 100)) := by
  have h := calculate_discount_rounding_spec 100
    ⟨100, 5, "5% de remise pour les achats de plus de 100€"⟩
    (gad_tier1 100 (by norm_num) (by norm_num))
  simpa using h

/-- A tax table with the CA entry removed: models a `TaxCalculator` whose
`self.tax_rates` lacks a known state (the claim's "rate entry is absent"). -/
def absent_CA_rates : State → Option TaxRate :=
  fun st => if st = .CA then none else default_tax_rates st

/-- A tax table whose CA entry has `enabled = False` (the claim's
"present with enabled = false"). -/
def disabled_CA_rates : State → Option TaxRate :=
  fun st => if st = .CA then some ⟨8.25, "California Sales Tax", false⟩
            else default_tax_rates st

/-- C3: a known state whose rate entry is absent does produce
`StateNotSupportedError`, but a known state whose entry is present with
`enabled = false` makes `validate_state` evaluate
`StateNotSupportedError(state, suggestion)` — a two-argument call to a
one-argument constructor — so a `TypeError` is raised instead of
`StateNotSupportedError`, contradicting the docstring of `validate_state`. -/
theorem validate_state_unsupported_behaviour :
    validate_state absent_CA_rates "CA" = .error (.stateNotSupported "CA") ∧
    validate_state disabled_CA_rates "CA" =
      .error (.typeError
        "StateNotSupportedError.__init__() takes 2 positional arguments but 3 were given") ∧
    ∀ s, validate_state disabled_CA_rates "CA" ≠ .error (.stateNotSupported s) := by
  have h2 : validate_state disabled_CA_rates "CA" =
      .error (.typeError
        "StateNotSupportedError.__init__() takes 2 positional arguments but 3 were given") := rfl
  refine ⟨rfl, h2, ?_⟩
  intro s h
  rw [h2] at h
  simp at h

/-- C4: for a non-negative amount and a jurisdiction accepted by
`validate_state` whose table entry is `tr`, `calculate_tax` first rounds the
amount, then computes `tax_amount = round2 (rounded * rate / 100)` and
`final_amount = round2 (rounded + tax_amount)`, in exactly that order. -/
theorem calculate_tax_rounding_order (rates : State → Option TaxRate) (amount : ℚ)
    (state : String) (st : State) (tr : TaxRate)
    (hvs : validate_state rates state = .ok st)
    (htr : rates st = some tr)
    (h0 : 0 ≤ amount) :
    calculate_tax rates amount state = .ok {
      original_amount := round2 amount
      state := state
      tax_rate := tr.rate
      tax_amount := round2 (round2 amount * (tr.rate / 100))
      final_amount := round2 (round2 amount + round2 (round2 amount * (tr.rate / 100)))
      tax_description := "Taxe de vente " ++ state ++ " (" ++ toString tr.rate ++ "%)"
      calculation_details := [
        "1. Montant de base : " ++ toString (round2 amount) ++ "€",
        "2. État " ++ state ++ " - Taux de taxe : " ++ toString tr.rate ++ "%",
        "3. Calcul de la taxe : " ++ toString (round2 amount) ++ "€ × "
          ++ toString tr.rate ++ "% = "
          ++ toString (round2 (round2 amount * (tr.rate / 100))) ++ "€",
        "4. Montant final : " ++ toString (round2 amount) ++ "€ + "
          ++ toString (round2 (round2 amount * (tr.rate / 100))) ++ "€ = "
          ++ toString (round2 (round2 amount + round2 (round2 amount * (tr.rate / 100)))) ++ "€"] } :=
  calculate_tax_ok_eq rates amount state st tr hvs htr h0

theorem calculate_tax_rounding_order_witness :
    calculate_tax default_tax_rates 95 "CA" = .ok {
      original_amount := round2 95
      state := "CA"
      tax_rate := (8.25 : ℚ)
      tax_amount := round2 (round2 95 * ((8.25 : ℚ) / 100))
      final_amount := round2 (round2 95 + round2 (round2 95 * ((8.25 : ℚ) / 100)))
      tax_description := "Taxe de vente " ++ "CA" ++ " (" ++ toString (8.25 : ℚ) ++ "%)"
      calculation_details := [
        "1. Montant de base : " ++ toString (round2 (95 : ℚ)) ++ "€",
        "2. État " ++ "CA" ++ " - Taux de taxe : " ++ toString (8.25 : ℚ) ++ "%",
        "3. Calcul de la taxe : " ++ toString (round2 (95 : ℚ)) ++ "€ × "
          ++ toString (8.25 : ℚ) ++ "% = "
          ++ toString (round2 (round2 95 * ((8.25 : ℚ) / 100))) ++ "€",
        "4. Montant final : " ++ toString (round2 (95 : ℚ)) ++ "€ + "
          ++ toString (round2 (round2 95 * ((8.25 : ℚ) / 100))) ++ "€ = "
          ++ toString (round2 (round2 95 + round2 (round2 95 * ((8.25 : ℚ) / 100)))) ++ "€"] } :=
  calculate_tax_rounding_order default_tax_rates 95 "CA" .CA
    ⟨8.25, "California Sales Tax", true⟩ rfl rfl (by norm_num)

/-- C8: a negative amount with a jurisdiction accepted by `validate_state`
makes `calculate_tax` fail with `CalculationError` whose message says the
amount cannot be negative, carrying the amount and the state; it is not a
jurisdiction error and not a success. -/
theorem calculate_tax_negative_amount (rates : State → Option TaxRate) (amount : ℚ)
    (state : String) (st : State)
    (hneg : amount < 0)
    (hvs : validate_state rates state = .ok st) :
    calculate_tax rates amount state =
      .error (.calculationError "Le montant ne peut pas être négatif"
        (.taxData amount state)) ∧
    (∀ v, calculate_tax rates amount state ≠ .error (.invalidState state v)) ∧
    (∀ s, calculate_tax rates amount state ≠ .error (.stateNotSupported s)) ∧
    (∀ ti, calculate_tax rates amount state ≠ .ok ti) := by
  have heq : calculate_tax rates amount state =
      .error (.calculationError "Le montant ne peut pas être négatif"
        (.taxData amount state)) := by
    unfold calculate_tax
    rw [hvs]
    dsimp only
    rw [if_pos hneg]
  refine ⟨heq, ?_, ?_, ?_⟩ <;> intro x h <;> rw [heq] at h <;> simp at h

theorem calculate_tax_negative_amount_witness :
    calculate_tax default_tax_rates (-1) "CA" =
      .error (.calculationError "Le montant ne peut pas être négatif"
        (.taxData (-1) "CA")) :=
  (calculate_tax_negative_amount default_tax_rates (-1) "CA" .CA (by norm_num) rfl).1

/-- C5: for a non-negative subtotal, a selected tier has `min_amount ≤ s` and
no eligible tier has a strictly higher percentage; when the subtotal is below
every tier's minimum the selection is `none` and `calculate_discount` reports
percentage 0 and amount 0. -/
theorem gad_selects_max_percentage (s : ℚ) (hs : 0 ≤ s) :
    (∀ r, get_applicable_discount s = some r →
      r.min_amount ≤ s ∧
      ∀ x ∈ discount_rules, x.min_amount ≤ s →
        x.discount_percentage ≤ r.discount_percentage) ∧
    ((∀ x ∈ discount_rules, s < x.min_amount) →
      get_applicable_discount s = none ∧
      (calculate_discount s).discount_percentage = 0 ∧
      (calculate_discount s).discount_amount = 0) := by
  constructor
  · intro r h
    obtain ⟨-, h1, h2⟩ := gad_some_spec s r h
    exact ⟨h1, h2⟩
  · intro hb
    have h100 : s < 100 := by
      have := hb ⟨100, 5, "5% de remise pour les achats de plus de 100€"⟩
        (by simp [discount_rules])
      simpa using this
    have hn := gad_below s h100
    rw [calculate_discount_none_eq s hn]
    exact ⟨hn, rfl, rfl⟩

theorem gad_selects_max_percentage_witness :
    (0 : ℚ) ≤ 600 ∧ (500 : ℚ) ≤ 600 ∧
    ∀ x ∈ discount_rules, x.min_amount ≤ 600 → x.discount_percentage ≤ 10 := by
  have h := (gad_selects_max_percentage 600 (by norm_num)).1
    ⟨500, 10, "10% de remise pour les achats de plus de 500€"⟩
    (gad_tier2 600 (by norm_num) (by norm_num))
  exact ⟨by norm_num, h.1, by simpa using h.2⟩

/-- C6: `calculate_final_price` fails with a `ValueError` exactly when
`quantity ≤ 0`, `quantity > 10000`, `unit_price ≤ 0`, `unit_price > 1000000`,
or `quantity * unit_price > 10000000`; each such error carries a
human-readable message and no breakdown is produced. -/
theorem calculate_final_price_valueError_iff (q : ℤ) (p : ℚ) (state : String) :
    (∃ m, calculate_final_price q p state = .error (.valueError m)) ↔
      (q ≤ 0 ∨ q > 10000 ∨ p ≤ 0 ∨ p > 1000000 ∨ (q : ℚ) * p > 10000000) := by
  constructor
  · rintro ⟨m, h⟩
    by_contra hn
    have hok := (validate_inputs_ok_iff q p).mpr hn
    unfold calculate_final_price at h
    rw [hok] at h
    dsimp only at h
    cases htax : calculate_tax default_tax_rates
        (calculate_discount (round2 ((q : ℚ) * p))).final_amount state with
    | ok ti => rw [htax] at h; simp at h
    | error e =>
      rw [htax] at h
      cases e with
      | valueError m2 => exact calculate_tax_ne_valueError _ _ _ m2 htax
      | invalidState s v => simp at h
      | stateNotSupported s => simp at h
      | calculationError d c => simp at h
      | typeError m2 => simp at h
  · intro hd
    rcases validate_inputs_error_or_ok q p with hok | ⟨m, hm⟩
    · exact absurd hd ((validate_inputs_ok_iff q p).mp hok)
    · exact ⟨m, calculate_final_price_validation_error q p state m hm⟩

/-- C7 (amended): a code outside the closed set makes `validate_state` and
`calculate_tax` fail with `InvalidStateError` carrying the offending code
and the full list of valid codes `[UT, NV, TX, AL, CA]`; the pipeline
`calculate_final_price`, however, re-wraps that error as `CalculationError`
(it is not a `ValueError`, so the generic handler catches it). -/
theorem unknown_state_behaviour (state : String) (h : state ∉ State.list_states) :
    State.list_states = ["UT", "NV", "TX", "AL", "CA"] ∧
    (∀ rates, validate_state rates state =
      .error (.invalidState state State.list_states)) ∧
    (∀ rates amount, calculate_tax rates amount state =
      .error (.invalidState state State.list_states)) ∧
    (∀ (q : ℤ) (p : ℚ), validate_inputs q p = .ok () →
      calculate_final_price q p state =
        .error (.calculationError (errorStr (.invalidState state State.list_states))
          (.pipelineData q p state))) := by
  refine ⟨rfl, fun rates => validate_state_invalid rates state h,
    fun rates amount => calculate_tax_invalid rates amount state h, ?_⟩
  intro q p hok
  exact calculate_final_price_wraps_error q p state _ hok
    (calculate_tax_invalid _ _ _ h) (fun m hx => by cases hx)

theorem unknown_state_behaviour_witness :
    "ZZ" ∉ State.list_states ∧
    validate_state default_tax_rates "ZZ" =
      .error (.invalidState "ZZ" State.list_states) := by
  have h : "ZZ" ∉ State.list_states := by decide
  exact ⟨h, (unknown_state_behaviour "ZZ" h).2.1 default_tax_rates⟩

/-- C7 counterexample: for the out-of-set code "XX" the full pipeline does
not surface `InvalidStateError`; it returns a `CalculationError` wrapping it. -/
theorem unknown_state_pipeline_cex :
    calculate_final_price 5 10 "XX" =
      .error (.calculationError "400: INVALID_STATE: XX" (.pipelineData 5 10 "XX")) ∧
    calculate_final_price 5 10 "XX" ≠
      .error (.invalidState "XX" State.list_states) := by
  have hok : validate_inputs 5 10 = .ok () :=
    (validate_inputs_ok_iff 5 10).mpr (by norm_num)
  have hx : "XX" ∉ State.list_states := by decide
  have htax := calculate_tax_invalid default_tax_rates
      (calculate_discount (round2 (((5 : ℤ) : ℚ) * 10))).final_amount "XX" hx
  have heq := calculate_final_price_wraps_error 5 10 "XX" _ hok htax (fun m hx2 => by cases hx2)
  constructor
  · rw [heq]
    rfl
  · rw [heq]
    simp

/-- C1 counterexample: with quantity 1, unit price 100 and the unknown code
"ZZ", the jurisdiction error raised inside the tax step does NOT surface
unwrapped from `calculate_final_price`: the pipeline returns a
`CalculationError` re-wrapping it. -/
theorem jurisdiction_error_rewrapped_cex :
    calculate_final_price 1 100 "ZZ" =
      .error (.calculationError "400: INVALID_STATE: ZZ" (.pipelineData 1 100 "ZZ")) ∧
    (∀ v, calculate_final_price 1 100 "ZZ" ≠ .error (.invalidState "ZZ" v)) ∧
    (∀ s, calculate_final_price 1 100 "ZZ" ≠ .error (.stateNotSupported s)) := by
  have hok : validate_inputs 1 100 = .ok () :=
    (validate_inputs_ok_iff 1 100).mpr (by norm_num)
  have hx : "ZZ" ∉ State.list_states := by decide
  have htax := calculate_tax_invalid default_tax_rates
      (calculate_discount (round2 (((1 : ℤ) : ℚ) * 100))).final_amount "ZZ" hx
  have heq := calculate_final_price_wraps_error 1 100 "ZZ" _ hok htax (fun m hx2 => by cases hx2)
  refine ⟨by rw [heq]; rfl, ?_, ?_⟩ <;> intro x h <;> rw [heq] at h <;> simp at h

/-- C1 (amended): every failure escaping the discount/tax steps that is not a
`ValueError` — jurisdiction errors included — is re-wrapped by
`calculate_final_price` into a `CalculationError` carrying the original
quantity, unit price and jurisdiction; only `ValueError`-class failures are
re-raised as `ValueError`. -/
theorem pipeline_rewraps_nonvalueerror (q : ℤ) (p : ℚ) (state : String) (e : RetailError)
    (hok : validate_inputs q p = .ok ())
    (htax : calculate_tax default_tax_rates
      (calculate_discount (round2 ((q : ℚ) * p))).final_amount state = .error e)
    (hne : ∀ m, e ≠ .valueError m) :
    calculate_final_price q p state =
      .error (.calculationError (errorStr e) (.pipelineData q p state)) :=
  calculate_final_price_wraps_error q p state e hok htax hne

theorem pipeline_rewraps_nonvalueerror_witness :
    calculate_final_price 2 50 "ZZ" =
      .error (.calculationError (errorStr (.invalidState "ZZ" State.list_states))
        (.pipelineData 2 50 "ZZ")) :=
  pipeline_rewraps_nonvalueerror 2 50 "ZZ" (.invalidState "ZZ" State.list_states)
    ((validate_inputs_ok_iff 2 50).mpr (by norm_num))
    (calculate_tax_invalid default_tax_rates _ "ZZ" (by decide))
    (fun m hx => by cases hx)

/-- C9: quantity 1, unit price 100.00, state CA yields subtotal 100.00,
discount 5% (5.00), price after discount 95.00, tax rate 8.25, tax 7.84 and
final price 102.84. -/
theorem scenario_CA_qty1_price100 :
    (calculate_final_price 1 100 "CA").map (fun b =>
      (b.subtotal, b.discount_percentage, b.discount_amount, b.price_after_discount,
       b.tax_rate, b.tax_amount, b.final_price)) =
    .ok (100, 5, 5, 95, 8.25, 7.84, 102.84) := by
  have hok : validate_inputs 1 100 = .ok () :=
    (validate_inputs_ok_iff 1 100).mpr (by norm_num)
  have hsub : round2 (((1 : ℤ) : ℚ) * 100) = 100 := by
    norm_num [round2, roundHalfEven]
  have hgad : get_applicable_discount 100 =
      some ⟨100, 5, "5% de remise pour les achats de plus de 100€"⟩ :=
    gad_tier1 100 (by norm_num) (by norm_num)
  have hdisc := calculate_discount_some_eq 100 _ hgad
  have hda : (calculate_discount 100).discount_amount = 5 := by
    rw [hdisc]; norm_num [round2, roundHalfEven]
  have hfa : (calculate_discount 100).final_amount = 95 := by
    rw [hdisc]; norm_num [round2, roundHalfEven]
  have hdp : (calculate_discount 100).discount_percentage = 5 := by
    rw [hdisc]
  have htax := calculate_tax_ok_eq default_tax_rates 95 "CA" .CA
    ⟨8.25, "California Sales Tax", true⟩ rfl rfl (by norm_num)
  have htax' : calculate_tax default_tax_rates
      (calculate_discount (round2 (((1 : ℤ) : ℚ) * 100))).final_amount "CA" =
      calculate_tax default_tax_rates 95 "CA" := by
    rw [hsub, hfa]
  have hmain := calculate_final_price_ok_eq 1 100 "CA" _ hok (htax'.trans htax)
  rw [hmain]
  simp only [Except.map, hsub, hdp, hda, hfa]
  refine congrArg Except.ok ?_
  have h95 : round2 (95 : ℚ) = 95 := by norm_num [round2, roundHalfEven]
  have htaxamt : round2 (round2 (95 : ℚ) * ((8.25 : ℚ) / 100)) = 7.84 := by
    rw [h95]; norm_num [round2, roundHalfEven]
  simp only [htaxamt, h95]
  norm_num [Prod.mk.injEq, round2, roundHalfEven]

/-- C10: the pipeline never checks the number of decimal places of
`unit_price` — that check lives only in `ProductInput.validate_price` at the
request-schema boundary.  Any unit price within the positivity and magnitude
bounds (2-decimal or not) goes through, the excess precision being silently
rounded into the subtotal; in particular quantity 2, unit price 4.999, state
CA succeeds with subtotal 10.00, while `validate_price` rejects 4.999. -/
theorem pipeline_ignores_price_precision :
    (∀ (q : ℤ) (p : ℚ) (state : String) (st : State),
      has_at_most_2_decimals p = false →
      0 < q → q ≤ 10000 → 0 < p → p ≤ 1000000 → (q : ℚ) * p ≤ 10000000 →
      State.ofValue? state = some st →
      ∃ b, calculate_final_price q p state = .ok b ∧
        b.subtotal = round2 ((q : ℚ) * p)) ∧
    validate_price (4999 / 1000) =
      .error "Le prix ne peut pas avoir plus de 2 décimales" ∧
    (∃ b, calculate_final_price 2 (4999 / 1000) "CA" = .ok b ∧ b.subtotal = 10) := by
  have main : ∀ (q : ℤ) (p : ℚ) (state : String) (st : State),
      has_at_most_2_decimals p = false →
      0 < q → q ≤ 10000 → 0 < p → p ≤ 1000000 → (q : ℚ) * p ≤ 10000000 →
      State.ofValue? state = some st →
      ∃ b, calculate_final_price q p state = .ok b ∧
        b.subtotal = round2 ((q : ℚ) * p) := by
    intro q p state st _ hq1 hq2 hp1 hp2 htot hst
    have hok : validate_inputs q p = .ok () := by
      rw [validate_inputs_ok_iff]
      push_neg
      exact ⟨hq1, hq2, hp1, hp2, htot⟩
    obtain ⟨tr, htr⟩ := default_tax_rates_enabled st
    have hvs := validate_state_default_ok state st hst
    have hs0 : 0 ≤ round2 ((q : ℚ) * p) :=
      round2_nonneg _ (mul_nonneg (by exact_mod_cast hq1.le) hp1.le)
    have hf0 := discount_final_nonneg _ hs0
    have htax := calculate_tax_ok_eq default_tax_rates _ state st tr hvs htr hf0
    exact ⟨_, calculate_final_price_ok_eq q p state _ hok htax, rfl⟩
  refine ⟨main, ?_, ?_⟩
  · unfold validate_price
    rw [price_4999_over_1000_not_2_decimals]
    rfl
  · obtain ⟨b, hb, hsub⟩ := main 2 (4999 / 1000) "CA" .CA
      price_4999_over_1000_not_2_decimals
      (by norm_num) (by norm_num) (by norm_num) (by norm_num) (by norm_num) rfl
    refine ⟨b, hb, ?_⟩
    rw [hsub]
    norm_num [round2, roundHalfEven]

theorem pipeline_ignores_price_precision_witness :
    ∃ b, calculate_final_price 2 (4999 / 1000) "CA" = .ok b ∧
      b.subtotal = round2 (((2 : ℤ) : ℚ) * (4999 / 1000)) :=
  pipeline_ignores_price_precision.1 2 (4999 / 1000) "CA" .CA
    price_4999_over_1000_not_2_decimals
    (by norm_num) (by norm_num) (by norm_num) (by norm_num) (by norm_num) rfl
